import Mathlib

/-!
Shallow embedding of the event-bot knowledge-base service
(src/event-bot/server.js) and proofs about its tiered lookup, logging
and analytics behaviour.

The HTTP layer, MongoDB driver and timestamps are modelled explicitly:
a store is a list of records in insertion ("natural") order, `Date.now`
becomes a `now : Nat` parameter, Mongo ObjectIds become `Nat` ids, and
each route handler is a pure function from its inputs (and the store
state) to a result that also carries the list of query-log writes it
performs.  The outcome of the single `await Log.create` call in the
`/chat` handler is modelled by a `logOk : Bool` parameter: `true` means
the insert succeeds, `false` means it throws, in which case control
reaches the surrounding `catch` block exactly as in the JavaScript.
-/

namespace EventBot

/-- `kbSchema` (server.js lines 19-25): a knowledge-base record.
Mongo `_id` is modelled as a `Nat` id. -/
structure KnowledgeRecord where
  id : Nat
  question : String
  answer : String
  tags : List String
  source : String
  createdAt : Nat
deriving DecidableEq

/-- The `matchedBy` enum of `logSchema` (server.js line 41). -/
inductive MatchedBy where
  | text
  | regex
  | tag
  | none
deriving DecidableEq

/-- `logSchema` (server.js lines 37-43): one query-log entry. -/
structure QueryLogEntry where
  query : String
  matchedDocId : Option Nat
  score : Option Nat
  matchedBy : MatchedBy
  createdAt : Nat
deriving DecidableEq

/-- JavaScript `String.prototype.toLowerCase`, restricted to the
character-wise case fold Lean's `Char.toLower` provides. -/
def lowerStr (s : String) : String :=
  String.mk (s.data.map Char.toLower)

/-- JavaScript `String.prototype.trim`: drop whitespace from both ends. -/
def trimStr (s : String) : String :=
  String.mk (((s.data.dropWhile Char.isWhitespace).reverse.dropWhile
      Char.isWhitespace).reverse)

/-- JavaScript `str.split(sep)` for a one-character separator, on char
lists: accumulates the current field and emits it at each separator. -/
def splitFields (sep : Char) (cur : List Char) : List Char → List (List Char)
  | [] => [cur.reverse]
  | c :: rest =>
      if c = sep then cur.reverse :: splitFields sep [] rest
      else splitFields sep (c :: cur) rest

/-- `String(tags).split(",")` (server.js line 90). -/
def splitComma (s : String) : List String :=
  (splitFields ',' [] s.data).map String.mk

/-- Whitespace tokenization with lowercasing, used by the model of the
Mongo text index: fields are compared word by word, case-insensitively. -/
def tokenize (s : String) : List String :=
  ((splitFields ' ' [] s.data).map (fun cs => lowerStr (String.mk cs))).filter
    (fun t => t ≠ "")

/-- Number of words of `field` that occur in the query token list. -/
def fieldHits (field : String) (qtoks : List String) : Nat :=
  ((tokenize field).filter (fun w => qtoks.contains w)).length

/-- Number of tags (each a single token, lowercased) occurring in the
query token list. -/
def tagHits (tags : List String) (qtoks : List String) : Nat :=
  (tags.filter (fun t => qtoks.contains (lowerStr t))).length

/-- Modelled from the spec (§4.1 `textSearch`) and the text-index
declaration (server.js lines 28-31): weighted relevance of a record for
a token list, weights `question 2, answer 2, tags 8`.  The exact Mongo
scoring formula is external to the repository; the model keeps its two
properties the code relies on: a record scores positively iff some
query word occurs in it, and tags dominate body text 4:1. -/
def textScore (r : KnowledgeRecord) (qtoks : List String) : Nat :=
  2 * fieldHits r.question qtoks + 2 * fieldHits r.answer qtoks
    + 8 * tagHits r.tags qtoks

/-- Ordering on scored records: descending relevance score. -/
def scoreGe (a b : KnowledgeRecord × Nat) : Prop := b.2 ≤ a.2

instance : DecidableRel scoreGe := fun a b => Nat.decLe b.2 a.2

instance : IsTotal (KnowledgeRecord × Nat) scoreGe :=
  ⟨fun a b => Nat.le_total b.2 a.2⟩

instance : IsTrans (KnowledgeRecord × Nat) scoreGe :=
  ⟨fun _ _ _ h1 h2 => Nat.le_trans h2 h1⟩

/-- `textSearch` (server.js lines 48-56): `$text` search with
`textScore` projection, sorted best first, `limit(1)`. -/
def textSearch (st : List KnowledgeRecord) (query : String) :
    List (KnowledgeRecord × Nat) :=
  let qtoks := tokenize query
  let scored := (st.map (fun r => (r, textScore r qtoks))).filter
    (fun p => p.2 ≠ 0)
  (List.insertionSort scoreGe scored).take 1

/-- The character class escaped on server.js line 59:
`[.*+?^$\x7b\x7d()|[\]\\]` — every regex metacharacter. -/
def isRegexMeta (c : Char) : Bool :=
  c ∈ ['.', '*', '+', '?', '^', '$', Char.ofNat 0x7b, Char.ofNat 0x7d,
       '(', ')', '|', '[', ']', '\\']

/-- `query.replace(/[.*+?^$\x7b\x7d()|[\]\\]/g, "\\$&")` on char lists:
prefix every metacharacter with a backslash. -/
def escapeChars : List Char → List Char
  | [] => []
  | c :: rest =>
      if isRegexMeta c then '\\' :: c :: escapeChars rest
      else c :: escapeChars rest

/-- The `safe` pattern string built on server.js line 59. -/
def escapeRegex (query : String) : String :=
  String.mk (escapeChars query.data)

/-- Interpretation of a regex pattern that denotes a literal character
sequence: a backslash escapes the next character, an unescaped
metacharacter (or dangling backslash) means the pattern is not a plain
literal and yields `none`.  This is the fragment of JavaScript `RegExp`
semantics exercised by the escaped patterns the server builds. -/
def litPattern : List Char → Option (List Char)
  | [] => some []
  | c :: rest =>
      if c = '\\' then
        match rest with
        | [] => Option.none
        | d :: rest2 => (litPattern rest2).map (fun cs => d :: cs)
      else if isRegexMeta c then Option.none
      else (litPattern rest).map (fun cs => c :: cs)

/-- `needle` occurs at the head of `hay`. -/
def headMatch : List Char → List Char → Bool
  | [], _ => true
  | _ :: _, [] => false
  | a :: as, b :: bs => a == b && headMatch as bs

/-- `needle` occurs contiguously somewhere in `hay`. -/
def containsSeq : List Char → List Char → Bool
  | needle, [] => needle.isEmpty
  | needle, c :: rest => headMatch needle (c :: rest) || containsSeq needle rest

/-- `rx.test`-style matching of the server's patterns with the `i` flag:
a literal pattern matches iff it is a case-insensitive substring. -/
def rxTest (pattern : String) (s : String) : Bool :=
  match litPattern pattern.data with
  | some cs => containsSeq (cs.map Char.toLower) (s.data.map Char.toLower)
  | Option.none => false

/-- `regexFallback` (server.js lines 58-62): escape the query, build a
case-insensitive regex, find records whose question or answer matches,
`limit(1)`. -/
def regexFallback (st : List KnowledgeRecord) (query : String) :
    List KnowledgeRecord :=
  let safe := escapeRegex query
  (st.filter (fun r => rxTest safe r.question || rxTest safe r.answer)).take 1

/-- `tagFilter` (server.js lines 64-67): empty tag list short-circuits
to `[]`; otherwise find records whose tags intersect the lowercased
search tags, `limit(1)`. -/
def tagFilter (st : List KnowledgeRecord) (tags : List String) :
    List KnowledgeRecord :=
  if tags.isEmpty then []
  else
    (st.filter (fun r => r.tags.any (fun t =>
      (tags.map lowerStr).contains t))).take 1

/-- Result of `POST /kb` (server.js lines 75-84): HTTP status, the
created record (if any) and the store state after the request. -/
structure KbResult where
  status : Nat
  record : Option KnowledgeRecord
  newStore : List KnowledgeRecord
deriving DecidableEq

/-- `app.post("/kb")` (server.js lines 75-84): reject with 400 when
`question` or `answer` is falsy (missing fields arrive as the empty
string), otherwise create the record with tags lowercased, `source`
defaulted by the destructuring, and reply 201 with it.  `newId` and
`now` stand for the ObjectId and `Date.now` the store assigns. -/
def kbAdd (st : List KnowledgeRecord) (question answer : String)
    (tags : List String) (source : String) (newId now : Nat) : KbResult :=
  if question = "" ∨ answer = "" then
    { status := 400, record := Option.none, newStore := st }
  else
    let doc : KnowledgeRecord :=
      { id := newId, question := question, answer := answer,
        tags := tags.map lowerStr, source := source, createdAt := now }
    { status := 201, record := some doc, newStore := st ++ [doc] }

/-- `tags ? String(tags).split(",").map(t => t.trim().toLowerCase()) : []`
(server.js line 90).  An absent parameter, and the empty string (falsy
in JavaScript), both give the empty list. -/
def parseTagList (tags : Option String) : List String :=
  match tags with
  | Option.none => []
  | some s =>
      if s = "" then []
      else (splitComma s).map (fun t => lowerStr (trimStr t))

/-- Response of `GET /kb/search` (server.js lines 87-101), together
with the list of query-log writes the handler performs. -/
structure SearchResult where
  query : String
  tags : List String
  results : List KnowledgeRecord
  logWrites : List QueryLogEntry
deriving DecidableEq

/-- `app.get("/kb/search")` (server.js lines 87-101): the same tier
cascade as `/chat` — text search when `q` is truthy, regex fallback when
that found nothing, tag filter when both missed and the tag list is
non-empty — with no `Log.create` call anywhere.  The score projection
of the text tier is dropped from `results`, which keeps only records. -/
def kbSearch (st : List KnowledgeRecord) (q : String)
    (tags : Option String) : SearchResult :=
  let tagList := parseTagList tags
  let step1 : List KnowledgeRecord :=
    if q ≠ "" then (textSearch st q).map Prod.fst else []
  let step2 :=
    if step1.isEmpty ∧ q ≠ "" then regexFallback st q else step1
  let step3 :=
    if step2.isEmpty ∧ ¬tagList.isEmpty then tagFilter st tagList else step2
  { query := q, tags := tagList, results := step3, logWrites := [] }

/-- The JSON body `res.json` sends from `POST /chat`: the miss branch
(server.js line 134) carries only `answer` and `matchedBy` (modelled
with the remaining fields absent), the hit branch (lines 136-142) adds
`source`, `tags` and `score`. -/
structure ChatResponse where
  answer : String
  source : Option String
  tags : Option (List String)
  matchedBy : MatchedBy
  score : Option Nat
deriving DecidableEq

/-- Outcome of one `POST /chat` request: status, JSON body (absent on
the 500 error path) and the query-log writes performed. -/
structure ChatResult where
  status : Nat
  response : Option ChatResponse
  logWrites : List QueryLogEntry
deriving DecidableEq

/-- The tier cascade of `app.post("/chat")` (server.js lines 107-128):
the mutable `top / matchedBy / score` triple threaded through the three
`if` blocks.  `query` truthy runs the text search; `!top && query` runs
the regex fallback; `!top && tags?.length` runs the tag filter. -/
def chatSelect (st : List KnowledgeRecord) (query : String)
    (tags : List String) : Option KnowledgeRecord × MatchedBy × Option Nat :=
  let s1 : Option KnowledgeRecord × MatchedBy × Option Nat :=
    if query ≠ "" then
      match textSearch st query with
      | (r, sc) :: _ => (some r, MatchedBy.text, some sc)
      | [] => (Option.none, MatchedBy.none, Option.none)
    else (Option.none, MatchedBy.none, Option.none)
  let s2 :=
    if s1.1 = Option.none ∧ query ≠ "" then
      match regexFallback st query with
      | r :: _ => (some r, MatchedBy.regex, s1.2.2)
      | [] => s1
    else s1
  let s3 :=
    if s2.1 = Option.none ∧ tags ≠ [] then
      match tagFilter st tags with
      | r :: _ => (some r, MatchedBy.tag, s2.2.2)
      | [] => s2
    else s2
  s3

/-- The fallback answer of the miss branch (server.js line 134). -/
def fallbackMsg : String := "Sorry, I don’t know yet."

/-- `score: score || null` (server.js line 131): JavaScript `||`
coalesces the falsy values `null` and `0` to `null`. -/
def scoreOrNull (sc : Option Nat) : Option Nat :=
  match sc with
  | some s => if s = 0 then Option.none else some s
  | Option.none => Option.none

/-- `app.post("/chat")` (server.js lines 104-146): run the tier
cascade, `await Log.create(...)` exactly once, then answer.  When the
log insert throws (`logOk = false`) the exception reaches the `catch`
block on line 143 and the handler replies 500 with no body modelled and
no log entry persisted; otherwise the miss branch replies the fallback
message and the hit branch replies the matched record. -/
def chat (st : List KnowledgeRecord) (query : String) (tags : List String)
    (now : Nat) (logOk : Bool) : ChatResult :=
  let sel := chatSelect st query tags
  let entry : QueryLogEntry :=
    { query := query, matchedDocId := sel.1.map (fun r => r.id),
      score := scoreOrNull sel.2.2, matchedBy := sel.2.1, createdAt := now }
  if logOk = false then
    { status := 500, response := Option.none, logWrites := [] }
  else
    match sel.1 with
    | Option.none =>
        { status := 200,
          response := some { answer := fallbackMsg, source := Option.none,
                             tags := Option.none, matchedBy := sel.2.1,
                             score := Option.none },
          logWrites := [entry] }
    | some t =>
        { status := 200,
          response := some { answer := t.answer, source := some t.source,
                             tags := some t.tags, matchedBy := sel.2.1,
                             score := sel.2.2 },
          logWrites := [entry] }

/-- Ordering on `(query, count)` groups: descending count. -/
def countGe (a b : String × Nat) : Prop := b.2 ≤ a.2

instance : DecidableRel countGe := fun a b => Nat.decLe b.2 a.2

instance : IsTotal (String × Nat) countGe := ⟨fun a b => Nat.le_total b.2 a.2⟩

instance : IsTrans (String × Nat) countGe :=
  ⟨fun _ _ _ h1 h2 => Nat.le_trans h2 h1⟩

/-- Distinct elements of a list, first occurrence kept, used to model
the grouping stage of the aggregation (Mongo emits one group per
distinct key, in unspecified order). -/
def dedupKeys (seen : List String) : List String → List String
  | [] => []
  | q :: rest =>
      if q ∈ seen then dedupKeys seen rest
      else q :: dedupKeys (q :: seen) rest

/-- `app.get("/analytics/top-queries")` (server.js lines 149-160): the
aggregation `$group` by `$query` with `$sum 1`, `$sort count: -1`,
`$limit 10`, each group rendered as the pair `(_id, count)`. -/
def topQueries (log : List QueryLogEntry) : List (String × Nat) :=
  let keys := dedupKeys [] (log.map (fun e => e.query))
  let groups := keys.map (fun q =>
    (q, log.countP (fun e => e.query == q)))
  (List.insertionSort countGe groups).take 10

/-- Modelled from the spec: the resolver algorithm of §4.2 written as
its four numbered steps — text tier when `query` is non-empty, regex
tier when the query is non-empty and text missed, tag tier when `tags`
is non-empty and both earlier tiers missed, otherwise no match — with
the score present exactly on the text tier.  Used only as the
comparison point for the refinement proof about `chatSelect`. -/
def tierSpec (st : List KnowledgeRecord) (query : String)
    (tags : List String) : Option KnowledgeRecord × MatchedBy × Option Nat :=
  match (if query ≠ "" then (textSearch st query).head? else Option.none) with
  | some (r, sc) => (some r, MatchedBy.text, some sc)
  | Option.none =>
    match (if query ≠ "" then (regexFallback st query).head? else Option.none) with
    | some r => (some r, MatchedBy.regex, Option.none)
    | Option.none =>
      match (if tags ≠ [] then (tagFilter st tags).head? else Option.none) with
      | some r => (some r, MatchedBy.tag, Option.none)
      | Option.none => (Option.none, MatchedBy.none, Option.none)

/-! ### Helper lemmas -/

theorem take_one_cons_nil {α : Type} {l : List α} {x : α} {rest : List α}
    (h : l.take 1 = x :: rest) : rest = [] := by
  cases l with
  | nil => simp at h
  | cons y ys => simp [List.take] at h; exact h.2

theorem textSearch_cons {st : List KnowledgeRecord} {q : String}
    {p : KnowledgeRecord × Nat} {rest : List (KnowledgeRecord × Nat)}
    (h : textSearch st q = p :: rest) : rest = [] := by
  unfold textSearch at h
  exact take_one_cons_nil h

theorem litPattern_escapeChars (cs : List Char) :
    litPattern (escapeChars cs) = some cs := by
  induction cs with
  | nil => rfl
  | cons c rest ih =>
    by_cases hm : isRegexMeta c = true
    · simp [escapeChars, hm, litPattern, ih]
    · have hc : ¬c = '\\' := by
        intro h
        rw [h] at hm
        exact hm (by decide)
      rw [show escapeChars (c :: rest) = c :: escapeChars rest by
        simp [escapeChars, hm]]
      rw [litPattern.eq_def]
      simp [hc, hm, ih]

theorem chatSelect_eq_tierSpec (st : List KnowledgeRecord) (q : String)
    (ts : List String) : chatSelect st q ts = tierSpec st q ts := by
  by_cases hq : q = ""
  · by_cases ht : ts = ([] : List String)
    · simp [chatSelect, tierSpec, hq, ht]
    · cases htf : tagFilter st ts with
      | nil => simp [chatSelect, tierSpec, hq, ht, htf]
      | cons r rest => simp [chatSelect, tierSpec, hq, ht, htf]
  · cases hts : textSearch st q with
    | cons p rest =>
      obtain ⟨r, sc⟩ := p
      simp [chatSelect, tierSpec, hq, hts]
    | nil =>
      cases hrx : regexFallback st q with
      | cons r rest => simp [chatSelect, tierSpec, hq, hts, hrx]
      | nil =>
        by_cases ht : ts = ([] : List String)
        · simp [chatSelect, tierSpec, hq, hts, hrx, ht]
        · cases htf : tagFilter st ts with
          | nil => simp [chatSelect, tierSpec, hq, hts, hrx, ht, htf]
          | cons r rest => simp [chatSelect, tierSpec, hq, hts, hrx, ht, htf]

theorem chatSelect_fst_none {st : List KnowledgeRecord} {q : String}
    {ts : List String} (h : (chatSelect st q ts).1 = Option.none) :
    chatSelect st q ts = (Option.none, MatchedBy.none, Option.none) := by
  rw [chatSelect_eq_tierSpec] at h ⊢
  unfold tierSpec at h ⊢
  split at h
  · simp at h
  · split at h
    · simp at h
    · split at h
      · simp at h
      · rfl

theorem chatSelect_matchedBy_none_iff (st : List KnowledgeRecord)
    (q : String) (ts : List String) :
    (chatSelect st q ts).2.1 = MatchedBy.none ↔
      (chatSelect st q ts).1 = Option.none := by
  rw [chatSelect_eq_tierSpec]
  unfold tierSpec
  split
  · simp
  · split
    · simp
    · split
      · simp
      · simp

theorem mem_dedupKeys {x : String} :
    ∀ (seen l : List String), x ∈ dedupKeys seen l → x ∈ l := by
  intro seen l
  induction l generalizing seen with
  | nil => intro h; simp [dedupKeys] at h
  | cons q rest ih =>
    intro h
    simp only [dedupKeys] at h
    by_cases hs : q ∈ seen
    · rw [if_pos hs] at h
      exact List.mem_cons_of_mem _ (ih _ h)
    · rw [if_neg hs] at h
      rcases List.mem_cons.mp h with h | h
      · exact h ▸ List.mem_cons_self ..
      · exact List.mem_cons_of_mem _ (ih _ h)

theorem regexFallback_cons {st : List KnowledgeRecord} {q : String}
    {r : KnowledgeRecord} {rest : List KnowledgeRecord}
    (h : regexFallback st q = r :: rest) : rest = [] := by
  unfold regexFallback at h
  exact take_one_cons_nil h

theorem tagFilter_cons {st : List KnowledgeRecord} {ts : List String}
    {r : KnowledgeRecord} {rest : List KnowledgeRecord}
    (h : tagFilter st ts = r :: rest) : rest = [] := by
  unfold tagFilter at h
  split at h
  · simp at h
  · exact take_one_cons_nil h

/-! ### Claim theorems -/

/-- Concrete store for the C1 divergence: one record whose question
contains the query word. -/
def c1Record : KnowledgeRecord :=
  { id := 1, question := "hello world", answer := "hi", tags := [],
    source := "user", createdAt := 0 }

/-- Claim C1: the spec requires that when the tiered lookup selects a
record, a failure of the query-log write still lets the answer reach
the caller.  The code violates this: `await Log.create` sits inside the
handler's `try` block, so on the store `[c1Record]` the query "hello"
selects a record and is answered with 200 when logging succeeds, but
when the log write throws the very same request falls into the `catch`
and replies 500 with no answer at all. -/
theorem c1_log_failure_masks_answer :
    (chatSelect [c1Record] "hello" []).1 = some c1Record ∧
    (chat [c1Record] "hello" [] 0 true).status = 200 ∧
    (chat [c1Record] "hello" [] 0 true).response =
      some { answer := "hi", source := some "user", tags := some [],
             matchedBy := MatchedBy.text, score := some 2 } ∧
    chat [c1Record] "hello" [] 0 false =
      { status := 500, response := Option.none, logWrites := [] } := by
  decide

/-- Claim C2: the `/chat` tier cascade equals the spec's strict
priority order — text tier only on a non-empty query, regex tier only
when the query is non-empty and text missed, tag tier only when the tag
list is non-empty and both earlier tiers missed, short-circuiting on
first success — and the relevance score is present on the selected
result exactly when the text tier matched. -/
theorem c2_tier_precedence :
    ∀ (st : List KnowledgeRecord) (q : String) (ts : List String),
    chatSelect st q ts = tierSpec st q ts ∧
    ((chatSelect st q ts).2.2).isSome =
      decide ((chatSelect st q ts).2.1 = MatchedBy.text) := by
  intro st q ts
  refine ⟨chatSelect_eq_tierSpec st q ts, ?_⟩
  rw [chatSelect_eq_tierSpec]
  unfold tierSpec
  split
  · simp
  · split
    · simp
    · split
      · simp
      · simp

/-- Claim C3: every `/chat` invocation on the success path of the log
write appends exactly one log entry, and a total miss — in particular
the empty query with the empty tag list — answers the fallback message
with `matchedBy = none` and still logs exactly one entry with
`matchedBy = none` and no record id. -/
theorem c3_exactly_one_log :
    ∀ (st : List KnowledgeRecord) (q : String) (ts : List String) (now : Nat),
    ((chat st q ts now true).logWrites).length = 1 ∧
    ((chatSelect st q ts).1 = Option.none →
      (chat st q ts now true).response =
        some { answer := fallbackMsg, source := Option.none,
               tags := Option.none, matchedBy := MatchedBy.none,
               score := Option.none } ∧
      (chat st q ts now true).logWrites =
        [{ query := q, matchedDocId := Option.none, score := Option.none,
           matchedBy := MatchedBy.none, createdAt := now }]) := by
  intro st q ts now
  constructor
  · cases h : (chatSelect st q ts).1 <;> simp [chat, h]
  · intro h
    have h3 := chatSelect_fst_none h
    simp [chat, h3, scoreOrNull]

/-- Witness for C3, on the empty store with query "x". -/
theorem c3_witness :
    ((chat [] "x" [] 5 true).logWrites).length = 1 ∧
    (chat [] "x" [] 5 true).response =
      some { answer := fallbackMsg, source := Option.none,
             tags := Option.none, matchedBy := MatchedBy.none,
             score := Option.none } ∧
    (chat [] "x" [] 5 true).logWrites =
      [{ query := "x", matchedDocId := Option.none, score := Option.none,
         matchedBy := MatchedBy.none, createdAt := 5 }] := by
  have h := c3_exactly_one_log [] "x" [] 5
  exact ⟨h.1, (h.2 (by decide)).1, (h.2 (by decide)).2⟩

/-- Claim C4: in every log entry the `/chat` handler writes,
`matchedBy = none` holds iff `matchedDocId` is absent. -/
theorem c4_none_iff_no_docid :
    ∀ (st : List KnowledgeRecord) (q : String) (ts : List String) (now : Nat)
    (e : QueryLogEntry), e ∈ (chat st q ts now true).logWrites →
    (e.matchedBy = MatchedBy.none ↔ e.matchedDocId = Option.none) := by
  intro st q ts now e he
  cases h : (chatSelect st q ts).1 with
  | none =>
    have h3 := chatSelect_fst_none h
    simp [chat, h3, scoreOrNull] at he
    simp [he]
  | some r =>
    simp [chat, h] at he
    subst he
    simp [chatSelect_matchedBy_none_iff, h]

/-- Witness for C4, on the empty store with the empty query. -/
theorem c4_witness :
    (({ query := "", matchedDocId := Option.none, score := Option.none,
        matchedBy := MatchedBy.none, createdAt := 0 } :
        QueryLogEntry).matchedBy = MatchedBy.none ↔
      ({ query := "", matchedDocId := Option.none, score := Option.none,
         matchedBy := MatchedBy.none, createdAt := 0 } :
         QueryLogEntry).matchedDocId = Option.none) :=
  c4_none_iff_no_docid [] "" [] 0 _ (by decide)

/-- Concrete store for the C5 example: the answer contains the literal
substring "C++". -/
def c5Record : KnowledgeRecord :=
  { id := 3, question := "Which languages are supported?",
    answer := "We support C++ and Python.", tags := [],
    source := "user", createdAt := 0 }

/-- Claim C5: the regex fallback escapes every metacharacter of the
query, so the escaped pattern denotes exactly the query as a literal
character sequence, matching behaves as a case-insensitive substring
test, and in particular the query "C++" finds a record containing the
literal substring "C++". -/
theorem c5_regex_literal :
    ∀ q : String,
    litPattern (escapeRegex q).data = some q.data ∧
    (∀ s : String, rxTest (escapeRegex q) s =
      containsSeq (q.data.map Char.toLower) (s.data.map Char.toLower)) ∧
    regexFallback [c5Record] "C++" = [c5Record] := by
  intro q
  have h1 : litPattern (escapeRegex q).data = some q.data :=
    litPattern_escapeChars q.data
  refine ⟨h1, ?_, by decide⟩
  intro s
  simp [rxTest, h1]

/-- Claim C6: `POST /kb` replies 400 and creates nothing when question
or answer is missing or empty, and otherwise replies 201 with the
created record, whose tags are the supplied tags lowercased. -/
theorem c6_kb_validation :
    ∀ (st : List KnowledgeRecord) (q a : String) (ts : List String)
    (src : String) (i n : Nat),
    ((q = "" ∨ a = "") →
      kbAdd st q a ts src i n =
        { status := 400, record := Option.none, newStore := st }) ∧
    (¬(q = "" ∨ a = "") →
      kbAdd st q a ts src i n =
        { status := 201,
          record := some { id := i, question := q, answer := a,
                           tags := ts.map lowerStr, source := src,
                           createdAt := n },
          newStore := st ++ [{ id := i, question := q, answer := a,
                               tags := ts.map lowerStr, source := src,
                               createdAt := n }] }) := by
  intro st q a ts src i n
  constructor
  · intro h
    simp [kbAdd, h]
  · intro h
    simp [kbAdd, h]

/-- Witness for C6: an empty question is rejected with 400, a complete
body is created with 201 and lowercased tags. -/
theorem c6_witness :
    (kbAdd [] "" "a1" [] "user" 1 0).status = 400 ∧
    (kbAdd [] "Q1" "A1" ["TagX"] "user" 1 0).record =
      some { id := 1, question := "Q1", answer := "A1", tags := ["tagx"],
             source := "user", createdAt := 0 } := by
  constructor
  · rw [(c6_kb_validation [] "" "a1" [] "user" 1 0).1 (Or.inl rfl)]
  · rw [(c6_kb_validation [] "Q1" "A1" ["TagX"] "user" 1 0).2 (by decide)]
    decide

/-- Claim C7: tag search is case-insensitive through lowercase
normalization on both sides — a record added with any tag is found by a
later tag search whose tag lowercases to the same string (in
particular "Parking" vs "parking") — and the tag filter returns the
empty sequence on the empty tag set. -/
theorem c7_tag_normalization :
    (∀ st : List KnowledgeRecord, tagFilter st [] = []) ∧
    (∀ (q a src : String) (i n : Nat) (tg stg : String),
      ¬(q = "" ∨ a = "") → lowerStr tg = lowerStr stg →
      ∃ d, (kbAdd [] q a [tg] src i n).record = some d ∧
        tagFilter (kbAdd [] q a [tg] src i n).newStore [stg] = [d]) := by
  constructor
  · intro st
    simp [tagFilter]
  · intro q a src i n tg stg hqa hl
    refine ⟨{ id := i, question := q, answer := a, tags := [lowerStr tg],
              source := src, createdAt := n }, ?_, ?_⟩
    · simp [kbAdd, hqa]
    · simp [kbAdd, hqa, tagFilter, hl]

/-- Witness for C7: tag "Parking" at write time is found by a search
for "parking". -/
theorem c7_witness :
    ∃ d, (kbAdd [] "q1" "a1" ["Parking"] "user" 1 0).record = some d ∧
      tagFilter (kbAdd [] "q1" "a1" ["Parking"] "user" 1 0).newStore
        ["parking"] = [d] :=
  c7_tag_normalization.2 "q1" "a1" "user" 1 0 "Parking" "parking"
    (by decide) (by decide)

/-- Claim C8: `/chat` is deterministic for a fixed store — two
invocations with the same query and tags (here at different times)
produce the same status and the same answer and matchedBy. -/
theorem c8_deterministic :
    ∀ (st : List KnowledgeRecord) (q : String) (ts : List String)
    (t1 t2 : Nat),
    (chat st q ts t1 true).status = (chat st q ts t2 true).status ∧
    ((chat st q ts t1 true).response.map (fun r => (r.answer, r.matchedBy))) =
      ((chat st q ts t2 true).response.map (fun r =>
        (r.answer, r.matchedBy))) := by
  intro st q ts t1 t2
  cases h : (chatSelect st q ts).1 <;> simp [chat, h]

/-- Claim C9: `GET /analytics/top-queries` groups the historical log
entries by their literal query text with occurrence counts, orders the
groups by count descending, and caps the output at the limit (10): the
result has at most 10 elements, is sorted by descending count, and each
element pairs a query that occurs in the log with the exact number of
log entries carrying that query. -/
theorem c9_top_queries :
    ∀ log : List QueryLogEntry,
    (topQueries log).length ≤ 10 ∧
    List.Sorted countGe (topQueries log) ∧
    (∀ p ∈ topQueries log,
      p.1 ∈ log.map (fun e => e.query) ∧
      p.2 = (log.filter (fun e => e.query == p.1)).length) := by
  intro log
  refine ⟨?_, ?_, ?_⟩
  · simp only [topQueries]
    simp [List.length_take]
  · exact List.Pairwise.sublist (List.take_sublist _ _)
      (List.sorted_insertionSort countGe _)
  · intro p hp
    simp only [topQueries] at hp
    have hp1 := List.mem_of_mem_take hp
    have hp2 := (List.perm_insertionSort countGe _).mem_iff.mp hp1
    rcases List.mem_map.mp hp2 with ⟨q, hq, rfl⟩
    constructor
    · exact mem_dedupKeys _ _ hq
    · exact List.countP_eq_length_filter _ _

/-- Concrete log for the C9 witness. -/
def c9Entry (q : String) : QueryLogEntry :=
  { query := q, matchedDocId := Option.none, score := Option.none,
    matchedBy := MatchedBy.none, createdAt := 0 }

/-- Witness for C9: on a three-entry log the repeated query heads the
output with count 2. -/
theorem c9_witness :
    (topQueries [c9Entry "a", c9Entry "b", c9Entry "a"]).length ≤ 10 ∧
    (("a", 2).1 ∈ [c9Entry "a", c9Entry "b", c9Entry "a"].map
        (fun e => e.query) ∧
      (("a", 2) : String × Nat).2 =
        ([c9Entry "a", c9Entry "b", c9Entry "a"].filter
          (fun e => e.query == ("a", 2).1)).length) := by
  have h := c9_top_queries [c9Entry "a", c9Entry "b", c9Entry "a"]
  exact ⟨h.1, h.2.2 ("a", 2) (by decide)⟩

/-- Claim C10: `GET /kb/search` performs no query-log write at all, and
its tier cascade selects exactly the record the `/chat` cascade selects
for the same query and parsed tag list. -/
theorem c10_search_no_log :
    ∀ (st : List KnowledgeRecord) (q : String) (tags : Option String),
    (kbSearch st q tags).logWrites = [] ∧
    (kbSearch st q tags).results =
      (match (chatSelect st q (parseTagList tags)).1 with
       | some r => [r]
       | Option.none => []) := by
  intro st q tags
  refine ⟨rfl, ?_⟩
  rw [chatSelect_eq_tierSpec]
  unfold tierSpec kbSearch
  by_cases hq : q = ""
  · by_cases htl : parseTagList tags = []
    · simp [hq, htl]
    · cases htf : tagFilter st (parseTagList tags) with
      | nil => simp [hq, htl, htf]
      | cons r rest =>
        have h0 := tagFilter_cons htf
        subst h0
        simp [hq, htl, htf]
  · cases hts : textSearch st q with
    | cons p rest =>
      obtain ⟨r, sc⟩ := p
      have h0 := textSearch_cons hts
      subst h0
      simp [hq, hts]
    | nil =>
      cases hrx : regexFallback st q with
      | cons r rest =>
        have h0 := regexFallback_cons hrx
        subst h0
        simp [hq, hts, hrx]
      | nil =>
        by_cases htl : parseTagList tags = []
        · simp [hq, hts, hrx, htl]
        · cases htf : tagFilter st (parseTagList tags) with
          | nil => simp [hq, hts, hrx, htl, htf]
          | cons r rest =>
            have h0 := tagFilter_cons htf
            subst h0
            simp [hq, hts, hrx, htl, htf]

end EventBot
